import Mathlib

/-!
# Verification of the favourite-movies application core

A shallow embedding of `src/main.py`: the `Movie` table, the re-ranking pass
of the `home` route, and the `add_movie`, `rate_movie`, `delete_movie` and
`find_movie` route handlers, together with theorems settling the spec claims.

The database table is modelled as a `List Movie` in rowid (insertion) order.
SQLAlchemy/SQLite `Float` columns are modelled as `ℚ` (the claims use exact
decimal values only), nullable columns as `Option`.
-/

/-- The `Movie` model of `src/main.py` lines 60-68: `id` integer primary key,
`title` unique non-null string, `year` integer non-null, `description`
non-null, `rating`/`ranking`/`review` nullable, `img_url` non-null. -/
structure Movie where
  id : Nat
  title : String
  year : Int
  description : String
  rating : Option ℚ
  ranking : Option Int
  review : Option String
  img_url : String
deriving DecidableEq, Repr

/-- Order of `Option ℚ` values under SQLite `ORDER BY rating DESC`, read as
"x is at least y": a NULL rating is smaller than every numeric rating, so in
the descending scan NULLs come last. -/
def keyLE (x y : Option ℚ) : Prop :=
  match x, y with
  | none, _ => True
  | some _, none => False
  | some a, some b => a ≤ b

instance : DecidableRel keyLE := fun x y =>
  match x, y with
  | none, _ => isTrue trivial
  | some _, none => isFalse (fun h => h)
  | some a, some b => inferInstanceAs (Decidable (a ≤ b))

/-- `movieLE a b` holds when `a` may precede `b` in the
`ORDER BY Movie.rating DESC` result (line 91): `b`'s rating is at most
`a`'s, with an absent rating below every numeric one. -/
def movieLE (a b : Movie) : Prop := keyLE b.rating a.rating

instance : DecidableRel movieLE := fun a b =>
  inferInstanceAs (Decidable (keyLE b.rating a.rating))

instance : IsTotal Movie movieLE where
  total a b := by
    unfold movieLE keyLE
    rcases a.rating with _ | x <;> rcases b.rating with _ | y <;> simp
    exact le_total y x

instance : IsTrans Movie movieLE where
  trans a b c hab hbc := by
    unfold movieLE keyLE at *
    revert hab hbc
    rcases a.rating with _ | x <;> rcases b.rating with _ | y <;>
      rcases c.rating with _ | z <;>
      intro hab hbc <;>
      first
        | trivial
        | exact hab.elim
        | exact hbc.elim
        | exact le_trans hbc hab

/-- The `ORDER BY Movie.rating DESC` read of the `home` route (lines 91-92),
modelled as a stable sort of the rowid-ordered rows: SQLite returns equal-key
rows in a deterministic (rowid) order, which a stable sort preserves. -/
def sortByRatingDesc (store : List Movie) : List Movie :=
  store.insertionSort movieLE

/-- The rank-assignment loop of `home` (lines 94-98): walk the sorted list,
write `ranking := rank` onto each record and increment, committing as it
goes. -/
def assignRanks (n : Int) : List Movie → List Movie
  | [] => []
  | m :: ms => { m with ranking := some n } :: assignRanks (n + 1) ms

/-- The `home` route (lines 87-100): read all movies ordered by rating
descending, then overwrite each record's `ranking` with 1, 2, 3, ... in that
order. The returned list is both the rendered sequence and the store's rows
after the per-record commits. -/
def home (store : List Movie) : List Movie :=
  assignRanks 1 (sortByRatingDesc store)

/-- Strip the derived `ranking` field, leaving the authoritative data. -/
def clearRanking (m : Movie) : Movie := { m with ranking := none }

-- ### The route handlers

/-- HTTP methods relevant to the routes of `src/main.py`. -/
inductive Method | GET | POST
deriving DecidableEq, Repr

/-- Errors a request can end in: `notFound` is the 404 abort of
`db.get_or_404`, `methodNotAllowed` is Flask's 405 for a method the route
was not registered for, `valueError` is the uncaught Python `ValueError`
from `float()` on line 120, `duplicateTitle` is the `sqlalchemy`
`IntegrityError` raised by the UNIQUE constraint on `Movie.title` when the
commit on line 156 inserts an already-present title. -/
inductive RouteError
  | notFound
  | methodNotAllowed
  | valueError
  | duplicateTitle
deriving DecidableEq, Repr

/-- What a successful request hands back to the browser. -/
inductive RouteResponse
  | redirectHome
  | renderEdit (movieId : Nat)
  | renderDeleteConfirm (movieId : Nat)
  | redirectRate (movieId : Nat)
  | noResponse
deriving DecidableEq, Repr

deriving instance DecidableEq for Except

/-- The store rows after a request: an erroring request in this embedding
never carries a new store (each handler commits only on its success path),
so the rows fall back to the pre-request store. -/
def resultStore (r : Except RouteError (List Movie × RouteResponse))
    (store : List Movie) : List Movie :=
  match r with
  | .ok (st, _) => st
  | .error _ => store

/-- `db.get_or_404(Movie, movie_id)` (lines 118 and 129): look the primary
key up, aborting with 404 when the id is missing from the request or names
no row. -/
def get_or_404 (store : List Movie) (movie_id : Option Nat) :
    Except RouteError Movie :=  match movie_id with
  | none => .error .notFound
  | some i =>
    match store.find? (fun m => m.id = i) with
    | none => .error .notFound
    | some m => .ok m

/-- One rate-form submission: the raw text of the two `StringField`s of
`RateMovieForm` (lines 78-81). -/
structure RateSubmission where
  rating : String
  review : String
deriving DecidableEq, Repr

/-- `RateMovieForm.validate()`: neither `rating` nor `review` carries any
validator (lines 79-80), so validation accepts every submission, the empty
rating text included. -/
def rateMovieFormValidates (_sub : RateSubmission) : Bool := true

/-- Value of a digit string, most significant digit first. -/
def digitsVal (ds : List Char) : Nat :=
  ds.foldl (fun a c => a * 10 + (c.toNat - 48)) 0

/-- Python `str.strip()` on a character list: drop leading and trailing
whitespace. -/
def stripWS (cs : List Char) : List Char :=
  ((cs.dropWhile Char.isWhitespace).reverse.dropWhile Char.isWhitespace).reverse

/-- CPython `float(text)` on the finite decimal literals this application
can meet: surrounding whitespace stripped, an optional sign, digits with an
optional decimal point (at least one digit overall), an optional
exponent. Returns `none` exactly when `float()` raises `ValueError`
(the infinity and NaN spellings, which no rating form produces, are outside
this model). -/
def pyFloat (s : String) : Option ℚ :=
  let cs0 := stripWS s.data
  let sgnAndRest : Bool × List Char :=
    match cs0 with
    | '+' :: r => (false, r)
    | '-' :: r => (true, r)
    | r => (false, r)
  let intSplit := sgnAndRest.2.span Char.isDigit
  let intDigits := intSplit.1
  let afterInt := intSplit.2
  let fracSplit : List Char × List Char :=
    match afterInt with
    | '.' :: r => r.span Char.isDigit
    | r => ([], r)
  let fracDigits := fracSplit.1
  let afterFrac := if afterInt.head? = some '.' then fracSplit.2 else afterInt
  if intDigits.isEmpty && fracDigits.isEmpty then none
  else
    let k := fracDigits.length
    let mantNum : Nat := digitsVal intDigits * 10 ^ k + digitsVal fracDigits
    let signed : Int := if sgnAndRest.1 then -(mantNum : Int) else (mantNum : Int)
    match afterFrac with
    | [] => some (mkRat signed (10 ^ k))
    | e :: r =>
      if e = 'e' || e = 'E' then
        let esgnAndRest : Bool × List Char :=
          match r with
          | '+' :: r2 => (false, r2)
          | '-' :: r2 => (true, r2)
          | r2 => (false, r2)
        let expSplit := esgnAndRest.2.span Char.isDigit
        if expSplit.1.isEmpty || !expSplit.2.isEmpty then none
        else
          let ev := digitsVal expSplit.1
          if esgnAndRest.1 then some (mkRat signed (10 ^ (k + ev)))
          else some (mkRat (signed * ((10 ^ ev : Nat) : Int)) (10 ^ k))
      else none

/-- The `/edit` route `rate_movie` (lines 114-124): resolve the id with
`get_or_404`; on a validated POST set `rating := float(form.rating.data)`
and `review := form.review.data` on that row and commit; on GET render the
edit form. `float()` raising propagates before any commit. -/
def rate_movie (store : List Movie) (movie_id : Option Nat)
    (submitted : Bool) (sub : RateSubmission) :
    Except RouteError (List Movie × RouteResponse) :=
  match get_or_404 store movie_id with
  | .error e => .error e
  | .ok movie =>
    if submitted && rateMovieFormValidates sub then
      match pyFloat sub.rating with
      | none => .error .valueError
      | some r =>
        .ok (store.map (fun m =>
               if m.id = movie.id then
                 { m with rating := some r, review := some sub.review }
               else m),
             .redirectHome)
    else
      .ok (store, .renderEdit movie.id)

/-- The `/delete` route `delete_movie` (lines 126-137). The decorator on
line 126 has no `methods` argument, so Flask registers the route for GET
only and rejects a POST with 405 before the handler runs; inside the
handler the body deletes only when `request.method == "POST"` (line 130),
otherwise it flashes a warning and renders the confirmation page. -/
def delete_movie (store : List Movie) (method : Method)
    (movie_id : Option Nat) :
    Except RouteError (List Movie × RouteResponse) :=
  if method ≠ Method.GET then
    .error .methodNotAllowed
  else
    match get_or_404 store movie_id with
    | .error e => .error e
    | .ok movie =>
      if method = Method.POST then
        .ok (store.filter (fun m => m.id ≠ movie.id), .redirectHome)
      else
        .ok (store, .renderDeleteConfirm movie.id)

-- ### External lookup and the insert path

/-- The fixed poster-image base URL of line 17. -/
def MOVIE_DB_IMAGE_URL : String := "https://image.tmdb.org/t/p/w500"

/-- A provider detail response with the four fields `find_movie` reads
(lines 146-153): `title`, `release_date`, `poster_path`, `overview`. -/
structure ProviderDetail where
  title : String
  release_date : String
  poster_path : String
  overview : String
deriving DecidableEq, Repr

/-- Python `str.split(sep)` for a one-character separator, on character
lists: splitting the empty string gives one empty piece, and every
separator occurrence opens a new piece. -/
def splitChars (sep : Char) : List Char → List (List Char)
  | [] => [[]]
  | c :: rest =>
    let r := splitChars sep rest
    if c = sep then [] :: r
    else
      match r with
      | [] => [[c]]
      | h :: t => (c :: h) :: t

/-- The `year` argument of line 150: `data["release_date"].split("-")[0]`,
the substring of the release date before the first `"-"`. -/
def yearOf (release_date : String) : String :=
  String.mk ((splitChars '-' release_date.data).headD [])

/-- The `img_url` argument of line 152:
`f"{MOVIE_DB_IMAGE_URL}{data['poster_path']}"`, plain concatenation of the
image base with the provider's relative poster path. -/
def buildImgUrl (base poster_path : String) : String := base ++ poster_path

/-- The `Movie(...)` constructor call of lines 147-154, parameterised by the
image base that line 152 interpolates: title and overview verbatim, `year`
the pre-separator prefix of the release date, `img_url` the concatenation.
`rating`, `ranking` and `review` are not passed and stay absent. The `year`
string the Python code passes is still text here; the SQLite INTEGER column
affinity converts it on commit (see `insertMovie`). -/
structure NewMovie where
  title : String
  year : String
  description : String
  img_url : String
deriving DecidableEq, Repr

def movieFromDetail (base : String) (d : ProviderDetail) : NewMovie :=
  { title := d.title
  , year := yearOf d.release_date
  , img_url := buildImgUrl base d.poster_path
  , description := d.overview }

/-- The next primary key SQLite allocates on insert: one more than the
largest existing rowid. -/
def nextId (store : List Movie) : Nat :=
  (store.map Movie.id).foldr max 0 + 1

/-- SQLite INTEGER column affinity applied to the `year` text the Python
code passes: an integer-looking string is stored as the integer. Text that
does not look like an integer would be kept as text by SQLite; no claim
exercises that case and it is modelled as 0. -/
def sqliteIntOfText (s : String) : Int :=
  match s.data with
  | '-' :: ds =>
    if !ds.isEmpty && ds.all Char.isDigit then -(digitsVal ds : Int) else 0
  | ds =>
    if !ds.isEmpty && ds.all Char.isDigit then (digitsVal ds : Int) else 0

/-- `db.session.add(new_movie)` followed by `db.session.commit()`
(lines 155-156): the UNIQUE constraint on `title` (line 62) makes the
commit raise an `IntegrityError` when the title is already present and
nothing is persisted; otherwise the row is appended with a fresh id, its
numeric `year` text coerced to an integer by the column's INTEGER affinity,
and `rating`/`ranking`/`review` NULL. -/
def insertMovie (store : List Movie) (m : NewMovie) :
    Except RouteError (List Movie) :=
  if store.any (fun x => x.title = m.title) then
    .error .duplicateTitle
  else
    .ok (store ++ [{ id := nextId store
                   , title := m.title
                   , year := sqliteIntOfText m.year
                   , description := m.description
                   , rating := none
                   , ranking := none
                   , review := none
                   , img_url := m.img_url }])

/-- The store rows after an insert attempt: on the `IntegrityError` the
commit is rolled back and nothing was persisted. -/
def storeAfterInsert (r : Except RouteError (List Movie))
    (store : List Movie) : List Movie :=
  match r with
  | .ok st => st
  | .error _ => store

/-- The `/find` route `find_movie` (lines 139-157): when the request carries
a non-empty `id` (Python truthiness on line 142: absent and empty string
both fail it), fetch the provider detail for that id, build the `Movie`,
commit it and redirect to the rate form; otherwise the body is skipped and
the view returns `None`. The provider response for the id is passed in as
`detail`; `lookedUp` records whether the network call of line 145 was made
at all. -/
structure FindOutcome where
  store : List Movie
  lookedUp : Bool
  response : RouteResponse
deriving DecidableEq, Repr

def find_movie (store : List Movie) (movie_api_id : Option String)
    (detail : ProviderDetail) : Except RouteError FindOutcome :=
  match movie_api_id with
  | none => .ok { store := store, lookedUp := false, response := .noResponse }
  | some s =>
    if s = "" then
      .ok { store := store, lookedUp := false, response := .noResponse }
    else
      match insertMovie store (movieFromDetail MOVIE_DB_IMAGE_URL detail) with
      | .error e => .error e
      | .ok st => .ok { store := st
                      , lookedUp := true
                      , response := .redirectRate (nextId store) }

-- ### The search path of the add flow

/-- What reaches the code of `add_movie` from `requests.get` (line 108): a
status code and, when the body parses as JSON, its `"results"` member if
any. The handler never reads `status`. -/
structure HttpResponse where
  status : Nat
  results : Option (List ProviderDetail)
deriving DecidableEq, Repr

/-- Spec §4.2 success criterion for a provider response. -/
def isSuccessStatus (s : Nat) : Bool := 200 ≤ s && s < 300

/-- What can terminate the search request abnormally: the
`requests.get` call raising (network failure), or the `KeyError` from
`response.json()["results"]` when the body has no `"results"` member
(line 109). -/
inductive SearchError
  | networkError
  | missingResultsKey
deriving DecidableEq, Repr

/-- The POST branch of the `/add` route `add_movie` (lines 106-110): issue
the provider search, take `response.json()["results"]` and render the
selection page with that list as-is. `resp` is `Except.error ()` when the
network call raised. No status check, no retry, no reordering. -/
def add_movie_search (resp : Except Unit HttpResponse) :
    Except SearchError (List ProviderDetail) :=
  match resp with
  | .error _ => .error .networkError
  | .ok r =>
    match r.results with
    | none => .error .missingResultsKey
    | some data => .ok data

-- ### Fixtures for the concrete instances of the claims

/-- 7.5, the tied rating of the spec's ranking example. -/
def q75 : ℚ := mkRat 15 2

def demoAbsent : Movie :=
  ⟨1, "Whiplash", 2014, "drums", none, none, none, "https://img/w.jpg"⟩

def demo9 : Movie :=
  ⟨2, "Parasite", 2019, "class", some (mkRat 9 1), none, none, "https://img/p.jpg"⟩

def demo75a : Movie :=
  ⟨3, "Arrival", 2016, "aliens", some q75, none, none, "https://img/a.jpg"⟩

def demo75b : Movie :=
  ⟨4, "Dune", 2021, "sand", some q75, none, none, "https://img/d.jpg"⟩

/-- The provider detail response of the spec's `fetchDetail` example. -/
def duneDetail : ProviderDetail := ⟨"Dune", "2021-10-22", "/abc.jpg", "Arrakis"⟩

-- ### Lemmas about the ranking pass

theorem assignRanks_length (n : Int) (l : List Movie) :
    (assignRanks n l).length = l.length := by
  induction l generalizing n with
  | nil => rfl
  | cons m ms ih => simp [assignRanks, ih]

theorem assignRanks_map_rating (n : Int) (l : List Movie) :
    (assignRanks n l).map Movie.rating = l.map Movie.rating := by
  induction l generalizing n with
  | nil => rfl
  | cons m ms ih => simp [assignRanks, ih]

theorem assignRanks_map_clearRanking (n : Int) (l : List Movie) :
    (assignRanks n l).map clearRanking = l.map clearRanking := by
  induction l generalizing n with
  | nil => rfl
  | cons m ms ih => simp [assignRanks, ih, clearRanking]

theorem assignRanks_get (n : Int) (l : List Movie) (k : Nat)
    (hk : k < (assignRanks n l).length) :
    ((assignRanks n l).get ⟨k, hk⟩).ranking = some (n + k) := by
  induction l generalizing n k with
  | nil => simp [assignRanks] at hk
  | cons m ms ih =>
    cases k with
    | zero => simp [assignRanks]
    | succ j =>
      have h := ih (n + 1) j (by simpa [assignRanks, Nat.succ_lt_succ_iff] using hk)
      simpa [assignRanks, add_assoc, add_comm, add_left_comm] using h

/-- `movieLE` only reads the `rating` field, so pairwise order transfers
along any map that preserves ratings. -/
theorem pairwise_movieLE_of_map_rating {l l' : List Movie}
    (h : l.map Movie.rating = l'.map Movie.rating)
    (hl : l.Pairwise movieLE) : l'.Pairwise movieLE := by
  have h1 : l.Pairwise movieLE ↔
      (l.map Movie.rating).Pairwise (fun x y => keyLE y x) := by
    rw [List.pairwise_map]
    rfl
  have h2 : l'.Pairwise movieLE ↔
      (l'.map Movie.rating).Pairwise (fun x y => keyLE y x) := by
    rw [List.pairwise_map]
    rfl
  rw [h2, ← h]
  exact h1.mp hl

theorem sorted_assignRanks (n : Int) (l : List Movie)
    (h : l.Sorted movieLE) : (assignRanks n l).Sorted movieLE :=
  pairwise_movieLE_of_map_rating (assignRanks_map_rating n l).symm h

theorem assignRanks_assignRanks (n m : Int) (l : List Movie) :
    assignRanks n (assignRanks m l) = assignRanks n l := by
  induction l generalizing n m with
  | nil => rfl
  | cons a as ih => simp [assignRanks, ih]

theorem sorted_home (store : List Movie) : (home store).Sorted movieLE :=
  sorted_assignRanks 1 _ (List.sorted_insertionSort movieLE store)

-- ### The claims

/-- C1: on every collection read the ranking pass orders the records by
rating descending with absent-rating records after all rated ones, and
assigns dense 1-based ranks in that order (ties get consecutive distinct
ranks); in particular for ratings [9.0, 7.5, 7.5, absent] the 9.0 record
gets rank 1, the two 7.5 records get ranks 2 and 3, and the absent-rating
record gets the last rank. -/
theorem C1_rank_pass_orders_and_numbers :
    (∀ store : List Movie,
      (home store).Sorted movieLE ∧
      (home store).length = store.length ∧
      (∀ k (hk : k < (home store).length),
        ((home store).get ⟨k, hk⟩).ranking = some (1 + (k : Int))) ∧
      List.Perm ((home store).map clearRanking) (store.map clearRanking)) ∧
    home [demoAbsent, demo9, demo75a, demo75b] =
      [{ demo9 with ranking := some 1 }, { demo75a with ranking := some 2 },
       { demo75b with ranking := some 3 }, { demoAbsent with ranking := some 4 }] := by
  constructor
  · intro store
    refine ⟨sorted_home store, ?_, ?_, ?_⟩
    · rw [home, assignRanks_length, sortByRatingDesc, List.length_insertionSort]
    · intro k hk
      exact assignRanks_get 1 _ k hk
    · rw [home, assignRanks_map_clearRanking]
      exact (List.perm_insertionSort movieLE store).map clearRanking
  · decide

/-- C2: the ranking pass is idempotent — running the collection read's
re-rank twice with no intervening mutation yields identical rank
assignments on every record. -/
theorem C2_rank_pass_idempotent :
    ∀ store : List Movie, home (home store) = home store := by
  intro store
  have hs : (home store).Sorted movieLE := sorted_home store
  show assignRanks 1 (sortByRatingDesc (home store)) = home store
  rw [sortByRatingDesc, hs.insertionSort_eq, home, assignRanks_assignRanks]

/-- C3 counterexample: for a store holding the record with id 1, the delete
operation on id 1 does not remove it. The only method the `/delete` route
accepts is GET (the decorator on line 126 passes no `methods` argument),
and that request merely renders the confirmation page with the store
intact — the record with id 1 still exists afterwards; a POST, the one
method that would reach the deleting branch of lines 130-133, is rejected
with 405 before the handler runs. So the claim that the record no longer
exists after the operation is false at this input. -/
theorem C3_counterexample_delete_leaves_record :
    delete_movie [demoAbsent] .GET (some 1) =
      .ok ([demoAbsent], .renderDeleteConfirm 1) ∧
    (resultStore (delete_movie [demoAbsent] .GET (some 1))
      [demoAbsent]).any (fun m => m.id = 1) = true ∧
    delete_movie [demoAbsent] .POST (some 1) = .error .methodNotAllowed := by
  refine ⟨by decide, by decide, by decide⟩

/-- C3 (amended): the delete operation never removes a record. The
`/delete` route accepts only GET (no `methods` argument on line 126), GET
requests only render the confirmation page, and the POST-guarded delete
branch (lines 130-133) is unreachable because Flask rejects POST with 405;
the store after any request to the route equals the store before it. -/
theorem C3_delete_route_never_removes :
    ∀ (store : List Movie) (method : Method) (movie_id : Option Nat),
      resultStore (delete_movie store method movie_id) store = store := by
  intro store method movie_id
  cases method with
  | POST => simp [delete_movie, resultStore]
  | GET =>
    cases h : get_or_404 store movie_id with
    | error e => simp [delete_movie, h, resultStore]
    | ok movie => simp [delete_movie, h, resultStore]

/-- C4: inserting a record whose title exactly matches an existing record's
title (case-sensitive) always fails with the title-uniqueness violation,
and the store's record count is unchanged by the failed insert. -/
theorem C4_duplicate_title_insert_fails (store : List Movie) (d : NewMovie)
    (h : ∃ m ∈ store, m.title = d.title) :
    insertMovie store d = .error .duplicateTitle ∧
    (storeAfterInsert (insertMovie store d) store).length = store.length := by
  have hb : store.any (fun x => x.title = d.title) = true := by
    rw [List.any_eq_true]
    obtain ⟨m, hm, ht⟩ := h
    exact ⟨m, hm, by simp [ht]⟩
  constructor
  · simp [insertMovie, hb]
  · simp [insertMovie, hb, storeAfterInsert]

theorem C4_duplicate_title_insert_fails_witness :
    insertMovie [demo9] ⟨"Parasite", "2019", "again", "https://img/x.jpg"⟩ =
      .error .duplicateTitle ∧
    (storeAfterInsert
      (insertMovie [demo9] ⟨"Parasite", "2019", "again", "https://img/x.jpg"⟩)
      [demo9]).length = [demo9].length :=
  C4_duplicate_title_insert_fails [demo9]
    ⟨"Parasite", "2019", "again", "https://img/x.jpg"⟩
    ⟨demo9, by decide, by decide⟩

/-- C5 counterexample: with image base `"https://img/"` and poster path
`"/abc.jpg"`, the code's plain concatenation yields
`"https://img//abc.jpg"`, not the `"https://img/abc.jpg"` the claim's
example states. -/
theorem C5_counterexample_img_url :
    (movieFromDetail "https://img/" duneDetail).img_url ≠ "https://img/abc.jpg" := by
  decide

/-- C5 (amended): the detail fetch takes the year as the substring of the
release date before the first separator and the poster URL as the image
base concatenated with the poster path; for release date `"2021-10-22"`,
poster path `"/abc.jpg"` and image base `"https://img/"` the stored record
has year 2021 and `img_url = "https://img//abc.jpg"` (both slashes kept by
the concatenation). -/
theorem C5_detail_extraction :
    (∀ (base : String) (d : ProviderDetail),
      (movieFromDetail base d).img_url = buildImgUrl base d.poster_path ∧
      (movieFromDetail base d).year = yearOf d.release_date) ∧
    movieFromDetail "https://img/" duneDetail =
      { title := "Dune", year := "2021", description := "Arrakis",
        img_url := "https://img//abc.jpg" } ∧
    insertMovie [] (movieFromDetail "https://img/" duneDetail) =
      .ok [{ id := 1, title := "Dune", year := 2021, description := "Arrakis",
             rating := none, ranking := none, review := none,
             img_url := "https://img//abc.jpg" }] := by
  refine ⟨fun base d => ⟨rfl, rfl⟩, by decide, by decide⟩

/-- C6: `get`, `updateRating` and `delete` on an id no stored record
carries always fail with the not-found error and leave the store exactly as
it was. -/
theorem C6_absent_id_not_found (store : List Movie) (i : Nat)
    (h : ∀ m ∈ store, m.id ≠ i) :
    get_or_404 store (some i) = .error .notFound ∧
    (∀ (submitted : Bool) (sub : RateSubmission),
      rate_movie store (some i) submitted sub = .error .notFound ∧
      resultStore (rate_movie store (some i) submitted sub) store = store) ∧
    delete_movie store .GET (some i) = .error .notFound ∧
    resultStore (delete_movie store .GET (some i)) store = store := by
  have hf : store.find? (fun m => m.id = i) = none := by
    rw [List.find?_eq_none]
    intro m hm
    simp [h m hm]
  have hg : get_or_404 store (some i) = .error .notFound := by
    simp [get_or_404, hf]
  refine ⟨hg, fun submitted sub => ⟨?_, ?_⟩, ?_, ?_⟩
  · simp [rate_movie, hg]
  · simp [rate_movie, hg, resultStore]
  · simp [delete_movie, hg]
  · simp [delete_movie, hg, resultStore]

theorem C6_absent_id_not_found_witness :
    get_or_404 [demo9] (some 7) = .error .notFound ∧
    (∀ (submitted : Bool) (sub : RateSubmission),
      rate_movie [demo9] (some 7) submitted sub = .error .notFound ∧
      resultStore (rate_movie [demo9] (some 7) submitted sub) [demo9] = [demo9]) ∧
    delete_movie [demo9] .GET (some 7) = .error .notFound ∧
    resultStore (delete_movie [demo9] .GET (some 7)) [demo9] = [demo9] :=
  C6_absent_id_not_found [demo9] 7 (by decide)

/-- C7: with a stored record id and any rating text that parses, the rate
operation overwrites only the `rating` and `review` fields of that record
and leaves every other field and every other record untouched; no range
validation is performed, so out-of-range ratings are stored as given (the
witness stores -1.0). -/
theorem C7_update_rating_frame (store : List Movie) (i : Nat) (r : ℚ)
    (rtext review : String)
    (hmem : ∃ m ∈ store, m.id = i)
    (hparse : pyFloat rtext = some r) :
    ∃ st, rate_movie store (some i) true ⟨rtext, review⟩ = .ok (st, .redirectHome) ∧
      st.length = store.length ∧
      (∀ k (hk : k < store.length) (hk2 : k < st.length),
        ((store.get ⟨k, hk⟩).id ≠ i → st.get ⟨k, hk2⟩ = store.get ⟨k, hk⟩) ∧
        ((store.get ⟨k, hk⟩).id = i →
          st.get ⟨k, hk2⟩ =
            { store.get ⟨k, hk⟩ with rating := some r, review := some review })) := by
  obtain ⟨m, hm, hid⟩ := hmem
  have hsome : (store.find? (fun x => x.id = i)).isSome := by
    rw [List.find?_isSome]
    exact ⟨m, hm, by simp [hid]⟩
  obtain ⟨m0, hm0⟩ := Option.isSome_iff_exists.mp hsome
  have hid0 : m0.id = i := by
    have := List.find?_some hm0
    simpa using this
  refine ⟨store.map (fun x =>
      if x.id = i then { x with rating := some r, review := some review }
      else x), ?_, by simp, ?_⟩
  · simp [rate_movie, get_or_404, hm0, rateMovieFormValidates, hparse, hid0]
  · intro k hk hk2
    constructor
    · intro hne
      simp only [List.get_eq_getElem] at hne ⊢
      simp only [List.getElem_map]
      rw [if_neg hne]
    · intro heq
      simp only [List.get_eq_getElem] at heq ⊢
      simp only [List.getElem_map]
      rw [if_pos heq]

theorem C7_update_rating_frame_witness :
    ∃ st, rate_movie [demoAbsent] (some 1) true ⟨"-1.0", "meh"⟩ =
        .ok (st, .redirectHome) ∧
      st.length = [demoAbsent].length ∧
      (∀ k (hk : k < [demoAbsent].length) (hk2 : k < st.length),
        (([demoAbsent].get ⟨k, hk⟩).id ≠ 1 →
          st.get ⟨k, hk2⟩ = [demoAbsent].get ⟨k, hk⟩) ∧
        (([demoAbsent].get ⟨k, hk⟩).id = 1 →
          st.get ⟨k, hk2⟩ =
            { [demoAbsent].get ⟨k, hk⟩ with
                rating := some (mkRat (-1) 1), review := some "meh" })) :=
  C7_update_rating_frame [demoAbsent] 1 (mkRat (-1) 1) "-1.0" "meh"
    ⟨demoAbsent, by decide, by decide⟩ (by decide)

/-- C8 counterexample: a provider response with non-success status 500
whose JSON body still carries a `"results"` list is not an error for the
search path — the handler never inspects the status and renders the list,
so the claim that every non-success status fails is false on the code. -/
theorem C8_counterexample_status_ignored :
    isSuccessStatus 500 = false ∧
    add_movie_search (.ok { status := 500, results := some [duneDetail] }) =
      .ok [duneDetail] :=
  ⟨rfl, rfl⟩

/-- C8 (amended): the search fails when the network call raises or when the
response body carries no `"results"` member (the HTTP status itself is
never inspected); on a body with `"results"` it returns that list verbatim,
with no retry and no re-sorting. -/
theorem C8_search_pipeline :
    (add_movie_search (.error ()) = .error .networkError) ∧
    (∀ (s : Nat) (l : List ProviderDetail),
      add_movie_search (.ok { status := s, results := some l }) = .ok l) ∧
    (∀ s : Nat,
      add_movie_search (.ok { status := s, results := none }) =
        .error .missingResultsKey) :=
  ⟨rfl, fun _ _ => rfl, fun _ => rfl⟩

/-- C9: the rate form accepts any rating text (the field has no validator),
and a submission whose rating text is not a valid float literal — the empty
string included — makes the rate operation raise the conversion error
before any commit, leaving the record unchanged. -/
theorem C9_invalid_rating_text (store : List Movie) (i : Nat)
    (sub : RateSubmission)
    (hmem : ∃ m ∈ store, m.id = i)
    (hbad : pyFloat sub.rating = none) :
    rateMovieFormValidates sub = true ∧
    rate_movie store (some i) true sub = .error .valueError ∧
    resultStore (rate_movie store (some i) true sub) store = store := by
  obtain ⟨m, hm, hid⟩ := hmem
  have hsome : (store.find? (fun x => x.id = i)).isSome := by
    rw [List.find?_isSome]
    exact ⟨m, hm, by simp [hid]⟩
  obtain ⟨m0, hm0⟩ := Option.isSome_iff_exists.mp hsome
  refine ⟨rfl, ?_, ?_⟩
  · simp [rate_movie, get_or_404, hm0, rateMovieFormValidates, hbad]
  · simp [rate_movie, get_or_404, hm0, rateMovieFormValidates, hbad, resultStore]

theorem C9_invalid_rating_text_witness :
    rateMovieFormValidates ⟨"", "w"⟩ = true ∧
    rate_movie [demo9] (some 2) true ⟨"", "w"⟩ = .error .valueError ∧
    resultStore (rate_movie [demo9] (some 2) true ⟨"", "w"⟩) [demo9] = [demo9] :=
  C9_invalid_rating_text [demo9] 2 ⟨"", "w"⟩ ⟨demo9, by decide, by decide⟩
    (by decide)

/-- C10: a `/find` request with a missing or empty provider id performs no
provider lookup, inserts nothing, raises nothing, and produces no response;
the store is left exactly as it was. -/
theorem C10_find_skips_without_id :
    ∀ (store : List Movie) (d : ProviderDetail),
      find_movie store none d =
        .ok { store := store, lookedUp := false, response := .noResponse } ∧
      find_movie store (some "") d =
        .ok { store := store, lookedUp := false, response := .noResponse } := by
  intro store d
  exact ⟨rfl, by simp [find_movie]⟩

theorem C1_rank_pass_orders_and_numbers_witness :
    (home [demo9]).Sorted movieLE ∧
    (home [demo9]).length = [demo9].length ∧
    (∀ k (hk : k < (home [demo9]).length),
      ((home [demo9]).get ⟨k, hk⟩).ranking = some (1 + (k : Int))) ∧
    List.Perm ((home [demo9]).map clearRanking) ([demo9].map clearRanking) :=
  C1_rank_pass_orders_and_numbers.1 [demo9]
